import Mathlib

/-
Verification development for the pyLoraRFM9x driver (src/pyLoraRFM9x/lora.py).

The driver is shallowly embedded: every modelled Python method becomes a pure
Lean function.  Hardware bus traffic is recorded as an explicit list of
register operations, asynchronous effects (the interrupt handler flipping the
shared mode variable while a foreground loop polls it) are supplied as oracle
inputs, and Python exceptions become an explicit error field.  The module
src/pyLoraRFM9x/constants.py is not present under src/; the constant values it
provides are modelled from the spec (section 3 data model: the 4-byte header,
the flag bitset, addresses 0-254 with a distinct broadcast address, five
distinct radio modes, distinct interrupt-status bits).  Register addresses are
taken from the register names used in lora.py itself (REG_12_IRQ_FLAGS is
register 0x12, and so on).
-/

namespace PyLoRa

/-- Modelled from the spec: constants.py is absent from src.  Register address
embedded in the source name REG_00_FIFO. -/
def REG_00_FIFO : Nat := 0x00

/-- Modelled from the spec: constants.py is absent from src.  Register address
embedded in the source name REG_01_OP_MODE. -/
def REG_01_OP_MODE : Nat := 0x01

/-- Modelled from the spec: constants.py is absent from src.  Register address
embedded in the source name REG_0D_FIFO_ADDR_PTR. -/
def REG_0D_FIFO_ADDR_PTR : Nat := 0x0d

/-- Modelled from the spec: constants.py is absent from src.  Register address
embedded in the source name REG_10_FIFO_RX_CURRENT_ADDR. -/
def REG_10_FIFO_RX_CURRENT_ADDR : Nat := 0x10

/-- Modelled from the spec: constants.py is absent from src.  Register address
embedded in the source name REG_12_IRQ_FLAGS. -/
def REG_12_IRQ_FLAGS : Nat := 0x12

/-- Modelled from the spec: constants.py is absent from src.  Register address
embedded in the source name REG_13_RX_NB_BYTES. -/
def REG_13_RX_NB_BYTES : Nat := 0x13

/-- Modelled from the spec: constants.py is absent from src.  Register address
embedded in the source name REG_19_PKT_SNR_VALUE. -/
def REG_19_PKT_SNR_VALUE : Nat := 0x19

/-- Modelled from the spec: constants.py is absent from src.  Register address
embedded in the source name REG_1A_PKT_RSSI_VALUE. -/
def REG_1A_PKT_RSSI_VALUE : Nat := 0x1a

/-- Modelled from the spec: constants.py is absent from src.  Register address
embedded in the source name REG_22_PAYLOAD_LENGTH. -/
def REG_22_PAYLOAD_LENGTH : Nat := 0x22

/-- Modelled from the spec: constants.py is absent from src.  Register address
embedded in the source name REG_40_DIO_MAPPING1. -/
def REG_40_DIO_MAPPING1 : Nat := 0x40

/-- Modelled from the spec: constants.py is absent from src.  One of the five
distinct radio mode register values (sleep). -/
def MODE_SLEEP : Nat := 0x80

/-- Modelled from the spec: constants.py is absent from src.  One of the five
distinct radio mode register values (standby, called idle by the driver). -/
def MODE_STDBY : Nat := 0x81

/-- Modelled from the spec: constants.py is absent from src.  One of the five
distinct radio mode register values (transmit). -/
def MODE_TX : Nat := 0x83

/-- Modelled from the spec: constants.py is absent from src.  One of the five
distinct radio mode register values (continuous receive). -/
def MODE_RXCONTINUOUS : Nat := 0x85

/-- Modelled from the spec: constants.py is absent from src.  One of the five
distinct radio mode register values (channel activity detection). -/
def MODE_CAD : Nat := 0x87

/-- Modelled from the spec: constants.py is absent from src.  Device addresses
occupy 0-254, so the distinct broadcast address is 255. -/
def BROADCAST_ADDRESS : Nat := 255

/-- Modelled from the spec: constants.py is absent from src.  The isAck bit of
the header flag bitset, distinct from the requestAck bit. -/
def FLAGS_ACK : Nat := 0x80

/-- Modelled from the spec: constants.py is absent from src.  The requestAck
bit of the header flag bitset, distinct from the isAck bit. -/
def FLAGS_REQ_ACK : Nat := 0x40

/-- Modelled from the spec: constants.py is absent from src.  Distinct bit of
the interrupt status register signalling receive complete. -/
def RX_DONE : Nat := 0x40

/-- Modelled from the spec: constants.py is absent from src.  Distinct bit of
the interrupt status register signalling transmit complete. -/
def TX_DONE : Nat := 0x08

/-- Modelled from the spec: constants.py is absent from src.  Distinct bit of
the interrupt status register signalling CAD complete. -/
def CAD_DONE : Nat := 0x04

/-- Modelled from the spec: constants.py is absent from src.  Distinct bit of
the interrupt status register signalling CAD detected activity. -/
def CAD_DETECTED : Nat := 0x01

/-- Modelled from the spec: constants.py is absent from src.  Distinct bit of
the interrupt status register signalling receive timeout. -/
def RX_TIMEOUT : Nat := 0x80

/-- One bus transaction: a register read or a register write with its payload
bytes, as issued by the helpers on lines 267-285 of lora.py. -/
inductive SpiOp where
  | read (reg : Nat)
  | write (reg : Nat) (payload : List Nat)
deriving DecidableEq, Repr

/-- Python exceptions that the modelled paths of lora.py can raise. -/
inductive PyErr where
  | attributeError
  | indexError
deriving DecidableEq, Repr

/-- The namedtuple built on lines 338-341 of lora.py.  The snr field holds the
quarter-dB value divided by 4 exactly (the Python float division). -/
structure Payload where
  message : List Nat
  header_to : Nat
  header_from : Nat
  header_id : Nat
  header_flags : Nat
  rssi : Int
  snr : Rat
deriving DecidableEq, Repr

/-- The externally supplied block cipher collaborator (pycrypto AES instance):
encrypt and decrypt over byte sequences. -/
structure Cipher where
  enc : List Nat → List Nat
  dec : List Nat → List Nat

/-- The slice of mutable LoRa object state that the modelled methods touch. -/
structure LoRaState where
  this_address : Nat
  receive_all : Bool
  acks : Bool
  crypto : Option Cipher
  mode : Option Nat
  cad : Option Nat
  last_payload : Option Payload
  last_header_id : Nat
  default_mode : Nat

/-- The stored mode together with the bus write log, the two observables of
the mode transition methods (lines 140-166 and 199-203 of lora.py). -/
structure ModeCtx where
  mode : Option Nat
  writes : List SpiOp
deriving DecidableEq, Repr

/-- Lines 140-144: write the sleep mode register unless already in sleep. -/
def set_mode_sleep (ctx : ModeCtx) : ModeCtx :=
  if ctx.mode ≠ some MODE_SLEEP then
    { mode := some MODE_SLEEP,
      writes := ctx.writes ++ [SpiOp.write REG_01_OP_MODE [ MODE_SLEEP]] }
  else ctx

/-- Lines 199-203: write the standby mode register unless already in standby. -/
def set_mode_idle (ctx : ModeCtx) : ModeCtx :=
  if ctx.mode ≠ some MODE_STDBY then
    { mode := some MODE_STDBY,
      writes := ctx.writes ++ [SpiOp.write REG_01_OP_MODE [ MODE_STDBY]] }
  else ctx

/-- Lines 147-152: write the transmit mode register and route TxDone to DIO0
unless already transmitting. -/
def set_mode_tx (ctx : ModeCtx) : ModeCtx :=
  if ctx.mode ≠ some MODE_TX then
    { mode := some MODE_TX,
      writes := ctx.writes ++ [SpiOp.write REG_01_OP_MODE [ MODE_TX],
                               SpiOp.write REG_40_DIO_MAPPING1 [0x40]] }
  else ctx

/-- Lines 154-159: write the continuous receive mode register and route RxDone
to DIO0 unless already receiving. -/
def set_mode_rx (ctx : ModeCtx) : ModeCtx :=
  if ctx.mode ≠ some MODE_RXCONTINUOUS then
    { mode := some MODE_RXCONTINUOUS,
      writes := ctx.writes ++ [SpiOp.write REG_01_OP_MODE [ MODE_RXCONTINUOUS],
                               SpiOp.write REG_40_DIO_MAPPING1 [0x00]] }
  else ctx

/-- Lines 161-166: write the CAD mode register and route CadDone to DIO0
unless already in CAD mode. -/
def set_mode_cad (ctx : ModeCtx) : ModeCtx :=
  if ctx.mode ≠ some MODE_CAD then
    { mode := some MODE_CAD,
      writes := ctx.writes ++ [SpiOp.write REG_01_OP_MODE [ MODE_CAD],
                               SpiOp.write REG_40_DIO_MAPPING1 [0x80]] }
  else ctx

/-- Lines 69-76: the default-mode selector chosen at construction; the
constructor rejects any selector other than 0, 1 or 2 with ValueError, so the
final catch-all is unreachable for constructed objects. -/
def set_default_mode (default_mode : Nat) (ctx : ModeCtx) : ModeCtx :=
  match default_mode with
  | 0 => set_mode_rx ctx
  | 1 => set_mode_idle ctx
  | 2 => set_mode_sleep ctx
  | _ => ctx

/-- Lines 292-297 (method _encrypt): prepend the one-byte plaintext length,
zero-pad so the framed block length is the next multiple of 16, then apply the
cipher encrypt.  The Nat ceiling division (n + 15) / 16 is math.ceil(n / 16). -/
def pyEncrypt (enc : List Nat → List Nat) (message : List Nat) : List Nat :=
  let msg_length := message.length
  let padding := List.replicate ((msg_length + 1 + 15) / 16 * 16 - (msg_length + 1)) 0
  enc ([msg_length] ++ message ++ padding)

/-- Lines 287-290 (method _decrypt): apply the cipher decrypt, read element 0
as the original length and return exactly that many following bytes.  Indexing
element 0 of an empty decrypt result raises IndexError. -/
def pyDecrypt (dec : List Nat → List Nat) (message : List Nat) : Except PyErr (List Nat) :=
  match dec message with
  | [] => Except.error PyErr.indexError
  | len :: rest => Except.ok (rest.take len)

/-- One check of the CAD polling loop in wait_cad (lines 175-188): whether the
generator of _is_channel_active still sees mode equal to MODE_CAD when it is
resumed, and whether the wall clock has passed cad_timeout when the loop body
runs.  Both are oracle observations of asynchronously updated state. -/
structure CadCheck where
  modeIsCad : Bool
  timedOut : Bool
deriving DecidableEq, Repr

/-- The for loop of wait_cad over the _is_channel_active generator.  Each yield
delivers None into status, so the branch returning status is unreachable; when
the generator sees the mode leave MODE_CAD it stops, the for statement ends and
wait_cad falls through, returning Python None.  Result encoding: outer none
means the schedule ended with the loop still polling; some none is the Python
None fall-through; some (some b) is a Python bool return. -/
def waitCadLoop : List CadCheck → Option (Option Bool)
  | [] => none
  | c :: rest =>
    if !c.modeIsCad then some none
    else if c.timedOut then some (some true)
    else waitCadLoop rest

/-- Lines 175-188 (method wait_cad) together with the generator
_is_channel_active of lines 168-173.  The cad argument is the stored _cad
result that the generator carries in its final return statement; the for loop
of wait_cad discards that StopIteration value, so the result never depends on
it.  A zero cad_timeout returns False at once. -/
def wait_cad (cad_timeout : Nat) (_cad : Option Nat) (checks : List CadCheck) :
    Option (Option Bool) :=
  if cad_timeout = 0 then some (some false)
  else waitCadLoop checks

/-- Environment of one interrupt handler invocation: the value of every
register read the handler performs.  The FIFO read of lines 304-307 returns
exactly the packet_len bytes announced by REG_13, so the packet list stands
for both: packet_len is its length. -/
structure IrqEnv where
  irq_flags : Nat
  rx_current_addr : Nat
  packet : List Nat
  snr_raw : Nat
  rssi_raw : Nat
deriving Repr

/-- Everything one interrupt handler invocation can change or emit: the new
shared state fields, the bus operations in order, the arguments of every call
to the cipher decrypt collaborator, the on_recv callback argument when the
callback fires, and the Python exception if the handler aborted.  On an abort
the other fields hold the values reached before the raise. -/
structure HandlerRun where
  mode : Option Nat
  cad : Option Nat
  last_payload : Option Payload
  callbackInvoked : Option Payload
  decryptCalls : List (List Nat)
  trace : List SpiOp
  error : Option PyErr
deriving Repr

/-- Lines 315-317: two's-complement quarter-dB conversion of the raw SNR byte,
then the Python float division by 4, carried out exactly in Rat. -/
def convertSnr (snr_raw : Nat) : Rat :=
  let s : Int := if snr_raw > 127 then (256 - (snr_raw : Int)) * (-1) else (snr_raw : Int)
  (s : Rat) / 4

/-- The bus operations of the receive branch prologue (lines 300-313), in
source order: the irq read at entry, packet length, current FIFO address, the
cursor write, the FIFO drain, the in-branch clear of all irq flags on line
308, then the SNR and RSSI reads. -/
def rxReadTrace (env : IrqEnv) : List SpiOp :=
  [SpiOp.read REG_12_IRQ_FLAGS, SpiOp.read REG_13_RX_NB_BYTES,
   SpiOp.read REG_10_FIFO_RX_CURRENT_ADDR,
   SpiOp.write REG_0D_FIFO_ADDR_PTR [env.rx_current_addr],
   SpiOp.read REG_00_FIFO,
   SpiOp.write REG_12_IRQ_FLAGS [0xff],
   SpiOp.read REG_19_PKT_SNR_VALUE, SpiOp.read REG_1A_PKT_RSSI_VALUE]

/-- Lines 333-344, the tail of the receive branch after the optional
decryption.  Line 333 guards the auto-acknowledgment on the attribute _ack,
which no statement of the class ever assigns: when the packet is addressed to
this device with requestAck set and isAck clear, evaluating that attribute
raises AttributeError and the handler aborts, never reaching send_ack.
Otherwise the handler re-enters receive mode (a no-op here, the branch runs
only in MODE_RXCONTINUOUS), publishes the payload, appends the final flag
clear of line 355 and invokes on_recv unless the packet is itself an ack. -/
def rxDeliver (st : LoRaState) (tr : List SpiOp) (decCalls : List (List Nat))
    (message : List Nat) (header_to header_from header_id header_flags : Nat)
    (rssi : Int) (snr : Rat) : HandlerRun :=
  if header_to == st.this_address && (header_flags &&& FLAGS_REQ_ACK) != 0 &&
      (header_flags &&& FLAGS_ACK) == 0 then
    { mode := st.mode, cad := st.cad, last_payload := st.last_payload,
      callbackInvoked := none, decryptCalls := decCalls, trace := tr,
      error := some PyErr.attributeError }
  else
    let ctx := set_mode_rx { mode := st.mode, writes := tr }
    let p : Payload :=
      ⟨message, header_to, header_from, header_id, header_flags, rssi, snr⟩
    { mode := ctx.mode, cad := st.cad, last_payload := some p,
      callbackInvoked := if (header_flags &&& FLAGS_ACK) == 0 then some p else none,
      decryptCalls := decCalls,
      trace := ctx.writes ++ [SpiOp.write REG_12_IRQ_FLAGS [0xff]],
      error := none }

/-- Lines 302-344, the receive branch of the interrupt handler: drain the
packet, drop it when shorter than 4 bytes (falling through to the final
clear), return early on the address filter of lines 327-328 (skipping the
final clear of line 355), decrypt when a cipher is configured and the message
length is a multiple of 16, then hand over to rxDeliver. -/
def rxBranch (st : LoRaState) (env : IrqEnv) : HandlerRun :=
  if 4 ≤ env.packet.length then
    if st.this_address != env.packet.getD 0 0 &&
        BROADCAST_ADDRESS != env.packet.getD 0 0 &&
        st.receive_all == false then
      { mode := st.mode, cad := st.cad, last_payload := st.last_payload,
        callbackInvoked := none, decryptCalls := [],
        trace := rxReadTrace env, error := none }
    else
      match st.crypto with
      | some c =>
        if (env.packet.drop 4).length % 16 == 0 then
          match pyDecrypt c.dec (env.packet.drop 4) with
          | Except.error e =>
            { mode := st.mode, cad := st.cad, last_payload := st.last_payload,
              callbackInvoked := none, decryptCalls := [env.packet.drop 4],
              trace := rxReadTrace env, error := some e }
          | Except.ok m =>
            rxDeliver st (rxReadTrace env) [env.packet.drop 4] m
              (env.packet.getD 0 0) (env.packet.getD 1 0) (env.packet.getD 2 0)
              (env.packet.getD 3 0) (-137 + (env.rssi_raw : Int))
              (convertSnr env.snr_raw)
        else
          rxDeliver st (rxReadTrace env) [] (env.packet.drop 4)
            (env.packet.getD 0 0) (env.packet.getD 1 0) (env.packet.getD 2 0)
            (env.packet.getD 3 0) (-137 + (env.rssi_raw : Int))
            (convertSnr env.snr_raw)
      | none =>
        rxDeliver st (rxReadTrace env) [] (env.packet.drop 4)
          (env.packet.getD 0 0) (env.packet.getD 1 0) (env.packet.getD 2 0)
          (env.packet.getD 3 0) (-137 + (env.rssi_raw : Int))
          (convertSnr env.snr_raw)
  else
    { mode := st.mode, cad := st.cad, last_payload := st.last_payload,
      callbackInvoked := none, decryptCalls := [],
      trace := rxReadTrace env ++ [SpiOp.write REG_12_IRQ_FLAGS [0xff]],
      error := none }

/-- Lines 299-355 (method _handle_interrupt).  The receive, transmit-done and
CAD-done branches follow the source; the receive-timeout branch of lines
352-353 does nothing and is covered by the catch-all, which like every
non-receive branch ends with the unconditional flag clear of line 355. -/
def handle_interrupt (st : LoRaState) (env : IrqEnv) : HandlerRun :=
  if st.mode == some MODE_RXCONTINUOUS && (env.irq_flags &&& RX_DONE) != 0 then
    rxBranch st env
  else if st.mode == some MODE_TX && (env.irq_flags &&& TX_DONE) != 0 then
    let ctx := set_default_mode st.default_mode
      { mode := st.mode, writes := [SpiOp.read REG_12_IRQ_FLAGS] }
    { mode := ctx.mode, cad := st.cad, last_payload := st.last_payload,
      callbackInvoked := none, decryptCalls := [],
      trace := ctx.writes ++ [SpiOp.write REG_12_IRQ_FLAGS [0xff]], error := none }
  else if st.mode == some MODE_CAD && (env.irq_flags &&& CAD_DONE) != 0 then
    let ctx := set_default_mode st.default_mode
      { mode := st.mode, writes := [SpiOp.read REG_12_IRQ_FLAGS] }
    { mode := ctx.mode, cad := some (env.irq_flags &&& CAD_DETECTED),
      last_payload := st.last_payload, callbackInvoked := none, decryptCalls := [],
      trace := ctx.writes ++ [SpiOp.write REG_12_IRQ_FLAGS [0xff]], error := none }
  else
    { mode := st.mode, cad := st.cad, last_payload := st.last_payload,
      callbackInvoked := none, decryptCalls := [],
      trace := [SpiOp.read REG_12_IRQ_FLAGS, SpiOp.write REG_12_IRQ_FLAGS [0xff]],
      error := none }

/-- Environment of one call to send: the CAD wait schedule and, because the
interrupt handler re-arms the default mode asynchronously while the CAD wait
polls, the mode observed once that wait is over; txWaitAfter is the result of
the final wait_packet_sent poll on line 234, which depends on whether the
transmit-done interrupt arrives within the timeout. -/
structure SendEnv where
  cad_timeout : Nat
  cadChecks : List CadCheck
  modeAfterCad : Option Nat
  txWaitAfter : Bool

/-- Result of one send call: the state reached, the bus writes issued and the
boolean result. -/
structure SendResult where
  st : LoRaState
  trace : List SpiOp
  ok : Bool

/-- Lines 216-227 of send: the 4-byte header followed by the data, encrypted
first when a cipher is configured.  The integer, bytes and text conversions of
lines 217-222 are collapsed into a single byte list input. -/
def buildFrame (st : LoRaState) (header_to header_id header_flags : Nat)
    (data : List Nat) : List Nat :=
  [header_to, st.this_address, header_id, header_flags] ++
    (match st.crypto with
     | some c => pyEncrypt c.enc data
     | none => data)

/-- Lines 206-234 (method send).  The opening wait_packet_sent of line 210
polls the shared mode without bus traffic and its result is discarded, so it
leaves no mark on the model.  A CAD result equal to Python True (the integer
comparison CAD_status == 1 on line 212) aborts with False; the Python None
fall-through of wait_cad is falsy there and send proceeds.  Then the FIFO is
loaded under the lock with no check whatsoever of the frame length, transmit
mode is entered and the final wait_packet_sent result is returned.  A none
result models a CAD poll schedule that never terminates. -/
def send (st : LoRaState) (env : SendEnv) (data : List Nat)
    (header_to header_id header_flags : Nat) : Option SendResult :=
  let ctx0 : ModeCtx := { mode := st.mode, writes := [] }
  let ctx1 := if env.cad_timeout = 0 then ctx0
              else { set_mode_cad ctx0 with mode := env.modeAfterCad }
  match wait_cad env.cad_timeout st.cad env.cadChecks with
  | none => none
  | some cadStatus =>
    if cadStatus == some true then
      some { st := { st with mode := ctx1.mode }, trace := ctx1.writes, ok := false }
    else
      let ctx2 := set_mode_idle ctx1
      let payload := buildFrame st header_to header_id header_flags data
      let ctx3 : ModeCtx :=
        { ctx2 with
          writes := ctx2.writes ++
            [SpiOp.write REG_0D_FIFO_ADDR_PTR [0],
             SpiOp.write REG_00_FIFO payload,
             SpiOp.write REG_22_PAYLOAD_LENGTH [payload.length]] }
      let ctx4 := set_mode_tx ctx3
      some { st := { st with mode := ctx4.mode }, trace := ctx4.writes,
             ok := env.txWaitAfter }

/-- Lines 262-265 (method send_ack): an acknowledgment is a send of the
one-byte payload containing the exclamation mark, byte 33, back to the sender
with the same sequence id and the isAck flag; the trailing wait_packet_sent
has no bus-visible effect. -/
def send_ack (st : LoRaState) (env : SendEnv) (header_to header_id : Nat) :
    Option SendResult :=
  send st env [33] header_to header_id FLAGS_ACK

/-- Environment of one attempt of send_to_wait: whether the low-level send
returned True, and the successive values that the polling loop of lines
251-259 reads from the shared last_payload field during its jittered wait
window (the window is finite, so the observation list is). -/
structure AttemptEnv where
  sendSuccess : Bool
  observations : List (Option Payload)

/-- The acknowledgment test of lines 254-256: the stored payload is addressed
to this device, carries the isAck flag and matches the sequence id of this
send.  The source address of the acknowledgment is not inspected. -/
def ack_matches (this_address last_header_id : Nat) (p : Payload) : Bool :=
  p.header_to == this_address && (p.header_flags &&& FLAGS_ACK) != 0 &&
    p.header_id == last_header_id

/-- The wait loop of lines 251-259: poll last_payload until a stored value
passes ack_matches (success) or the jittered timeout ends the window. -/
def wait_for_ack (this_address last_header_id : Nat) :
    List (Option Payload) → Bool
  | [] => false
  | none :: rest => wait_for_ack this_address last_header_id rest
  | some p :: rest =>
    if ack_matches this_address last_header_id p then true
    else wait_for_ack this_address last_header_id rest

/-- The retry loop of lines 240-259, one AttemptEnv per iteration: a failed
low-level send retries immediately; with acknowledgments disabled or a
broadcast destination a successful send returns True at once; otherwise the
attempt waits for a matching acknowledgment and a miss falls to the next
attempt.  Exhausting the list returns False (line 260). -/
def sendToWaitLoop (acks : Bool) (this_address last_header_id header_to : Nat) :
    List AttemptEnv → Bool
  | [] => false
  | e :: rest =>
    if e.sendSuccess == false then
      sendToWaitLoop acks this_address last_header_id header_to rest
    else if !acks || header_to == BROADCAST_ADDRESS then true
    else if wait_for_ack this_address last_header_id e.observations then true
    else sendToWaitLoop acks this_address last_header_id header_to rest

/-- Lines 237-260 (method send_to_wait): the per-device sequence id is
advanced once, by 1 masked to a byte (line 238), before the retry loop; the
loop then runs one iteration per supplied AttemptEnv, of which the caller
passes retries + 1.  Returns the new sequence id and the boolean result. -/
def send_to_wait (st : LoRaState) (header_to : Nat) (attempts : List AttemptEnv) :
    Nat × Bool :=
  let newId := (st.last_header_id + 1) &&& 0xff
  (newId, sendToWaitLoop st.acks st.this_address newId header_to attempts)

/-- A received packet addressed to this device (address 1) from device 2,
sequence id 7, with requestAck set and isAck clear: exactly the situation in
which the spec expects an automatic acknowledgment. -/
def c1_st : LoRaState :=
  { this_address := 1, receive_all := false, acks := true, crypto := none,
    mode := some MODE_RXCONTINUOUS, cad := none, last_payload := none,
    last_header_id := 0, default_mode := 0 }

/-- Interrupt environment delivering that packet with the receive-done bit. -/
def c1_env : IrqEnv :=
  { irq_flags := RX_DONE, rx_current_addr := 0,
    packet := [1, 2, 7, FLAGS_REQ_ACK], snr_raw := 0, rssi_raw := 0 }

/-- C1: on a packet addressed to this device with requestAck set and isAck
clear, the handler does not emit the acknowledgment the claim describes: line
333 evaluates the attribute _ack, which no statement of the class ever
assigns, so the handler raises AttributeError before send_ack, publishes no
payload, invokes no callback, and its bus trace is exactly the receive
prologue, containing no transmit activity at all. -/
theorem c1_auto_ack_raises :
    (handle_interrupt c1_st c1_env).error = some PyErr.attributeError ∧
    (handle_interrupt c1_st c1_env).callbackInvoked = none ∧
    (handle_interrupt c1_st c1_env).last_payload = none ∧
    (handle_interrupt c1_st c1_env).trace = rxReadTrace c1_env :=
  ⟨rfl, rfl, rfl, rfl⟩

/-- C3: with a nonzero timeout, when the mode leaves MODE_CAD before the
timeout elapses, wait_cad returns Python None whatever channel-activity result
the interrupt handler recorded, because the for statement discards the value
the _is_channel_active generator returns; in particular it does not return the
recorded detected result. -/
theorem c3_wait_cad_drops_result :
    (∀ cadVal : Option Nat,
      wait_cad 1 cadVal [⟨true, false⟩, ⟨false, false⟩] = some none) ∧
    some (none : Option Bool) ≠ some (some true) :=
  ⟨fun _ => rfl, by decide⟩

/-- C5: one call to send_to_wait advances the sequence id by exactly 1 modulo
256 whatever the attempt schedule (so however many retries run), and two
successive calls advance it by exactly 2 modulo 256. -/
theorem c5_sequence_id (st : LoRaState) (header_to : Nat)
    (attempts : List AttemptEnv) :
    (send_to_wait st header_to attempts).1 = (st.last_header_id + 1) % 256 ∧
    ∀ (st2 : LoRaState) (header_to2 : Nat) (attempts2 : List AttemptEnv),
      st2.last_header_id = (send_to_wait st header_to attempts).1 →
      (send_to_wait st2 header_to2 attempts2).1 = (st.last_header_id + 2) % 256 := by
  have hmask : ∀ n : Nat, n &&& 0xff = n % 256 := by
    intro n
    have := Nat.and_pow_two_sub_one_eq_mod n 8
    norm_num at this
    exact this
  constructor
  · exact hmask (st.last_header_id + 1)
  · intro st2 header_to2 attempts2 h2
    have e2 : (send_to_wait st2 header_to2 attempts2).1 = (st2.last_header_id + 1) % 256 :=
      hmask _
    have e1 : (send_to_wait st header_to attempts).1 = (st.last_header_id + 1) % 256 :=
      hmask _
    rw [e2, h2, e1]
    omega

/-- C6: for any plaintext within the claimed length range, and any cipher
whose decrypt inverts its encrypt, the decryption framing recovers exactly the
plaintext from the encryption framing: the length byte selects the original
bytes and the zero padding is discarded.  The length bound keeps the model
faithful to Python, whose bytes constructor would reject a length byte above
255; the list model needs no such bound. -/
theorem c6_roundtrip (enc dec : List Nat → List Nat)
    (hinv : ∀ b, dec (enc b) = b) (msg : List Nat)
    (_hlen : msg.length ≤ 16 * 15 - 1) :
    pyDecrypt dec (pyEncrypt enc msg) = Except.ok msg := by
  unfold pyEncrypt pyDecrypt
  rw [hinv]
  simp only [List.singleton_append, List.cons_append]
  exact congrArg Except.ok (List.take_left msg _)

/-- C6 witness: the identity cipher on the three-byte plaintext 10, 20, 30. -/
theorem c6_roundtrip_witness :
    [10, 20, 30].length ≤ 16 * 15 - 1 ∧
    pyDecrypt id (pyEncrypt id [10, 20, 30]) = Except.ok [10, 20, 30] :=
  ⟨by decide, c6_roundtrip id id (fun _ => rfl) [10, 20, 30] (by decide)⟩

/-- C9: each of the five mode transitions is a no-op when the stored mode is
already the target, and each is idempotent, so invoking the same transition
twice in a row performs exactly the write sequence of the first invocation. -/
theorem c9_mode_idempotent (ctx : ModeCtx) :
    (ctx.mode = some MODE_SLEEP → set_mode_sleep ctx = ctx) ∧
    set_mode_sleep (set_mode_sleep ctx) = set_mode_sleep ctx ∧
    (ctx.mode = some MODE_STDBY → set_mode_idle ctx = ctx) ∧
    set_mode_idle (set_mode_idle ctx) = set_mode_idle ctx ∧
    (ctx.mode = some MODE_TX → set_mode_tx ctx = ctx) ∧
    set_mode_tx (set_mode_tx ctx) = set_mode_tx ctx ∧
    (ctx.mode = some MODE_RXCONTINUOUS → set_mode_rx ctx = ctx) ∧
    set_mode_rx (set_mode_rx ctx) = set_mode_rx ctx ∧
    (ctx.mode = some MODE_CAD → set_mode_cad ctx = ctx) ∧
    set_mode_cad (set_mode_cad ctx) = set_mode_cad ctx := by
  refine ⟨fun h => by simp [set_mode_sleep, h], ?_,
          fun h => by simp [set_mode_idle, h], ?_,
          fun h => by simp [set_mode_tx, h], ?_,
          fun h => by simp [set_mode_rx, h], ?_,
          fun h => by simp [set_mode_cad, h], ?_⟩
  · by_cases h : ctx.mode = some MODE_SLEEP <;> simp [set_mode_sleep, h]
  · by_cases h : ctx.mode = some MODE_STDBY <;> simp [set_mode_idle, h]
  · by_cases h : ctx.mode = some MODE_TX <;> simp [set_mode_tx, h]
  · by_cases h : ctx.mode = some MODE_RXCONTINUOUS <;> simp [set_mode_rx, h]
  · by_cases h : ctx.mode = some MODE_CAD <;> simp [set_mode_cad, h]

/-- C9 witness: each transition applied in its own target mode changes
nothing, and a double idle transition from an unknown mode equals a single
one. -/
theorem c9_mode_idempotent_witness :
    set_mode_sleep ⟨some MODE_SLEEP, []⟩ = ⟨some MODE_SLEEP, []⟩ ∧
    set_mode_idle ⟨some MODE_STDBY, []⟩ = ⟨some MODE_STDBY, []⟩ ∧
    set_mode_tx ⟨some MODE_TX, []⟩ = ⟨some MODE_TX, []⟩ ∧
    set_mode_rx ⟨some MODE_RXCONTINUOUS, []⟩ = ⟨some MODE_RXCONTINUOUS, []⟩ ∧
    set_mode_cad ⟨some MODE_CAD, []⟩ = ⟨some MODE_CAD, []⟩ ∧
    set_mode_idle (set_mode_idle ⟨none, []⟩) = set_mode_idle ⟨none, []⟩ :=
  ⟨(c9_mode_idempotent _).1 rfl,
   (c9_mode_idempotent _).2.2.1 rfl,
   (c9_mode_idempotent _).2.2.2.2.1 rfl,
   (c9_mode_idempotent _).2.2.2.2.2.2.1 rfl,
   (c9_mode_idempotent _).2.2.2.2.2.2.2.2.1 rfl,
   (c9_mode_idempotent _).2.2.2.1⟩

/-- Device state for the C2 scenario: address 1, acknowledgments enabled,
sequence id about to advance to 42. -/
def c2_st : LoRaState :=
  { this_address := 1, receive_all := false, acks := true, crypto := none,
    mode := some MODE_RXCONTINUOUS, cad := none, last_payload := none,
    last_header_id := 41, default_mode := 0 }

/-- An acknowledgment observed during the wait window whose source address is
99, not the destination 5 of the send: addressed to this device, isAck set,
sequence id 42. -/
def c2_pkt : Payload := ⟨[], 1, 99, 42, 0x80, 0, 0⟩

/-- One attempt whose low-level send succeeds and whose wait window observes
exactly the packet from source 99. -/
def c2_attempts : List AttemptEnv := [⟨true, [some c2_pkt]⟩]

/-- C2 counterexample: send_to_wait to destination 5 returns success although
no observed packet has source address 5 — the loop of lines 253-256 checks the
destination, flag and sequence id of the stored payload but never its source
address, so an acknowledgment from any other device is accepted. -/
theorem c2_counterexample :
    (send_to_wait c2_st 5 c2_attempts).2 = true ∧
    (∀ e ∈ c2_attempts, ∀ o ∈ e.observations,
      Option.map Payload.header_from o ≠ some 5) := by
  decide

/-- Unfolding of the retry loop with acknowledgments enabled and a
non-broadcast destination: it returns True exactly when some attempt has a
successful low-level send and a wait window passing the ack_matches test. -/
theorem sendToWaitLoop_true_iff (this_address last_header_id header_to : Nat)
    (hbc : header_to ≠ BROADCAST_ADDRESS) (l : List AttemptEnv) :
    sendToWaitLoop true this_address last_header_id header_to l = true ↔
      ∃ e ∈ l, e.sendSuccess = true ∧
        wait_for_ack this_address last_header_id e.observations = true := by
  induction l with
  | nil => simp [sendToWaitLoop]
  | cons e rest ih =>
    have hbcb : (header_to == BROADCAST_ADDRESS) = false := by
      simpa using hbc
    cases h1 : e.sendSuccess with
    | false => simp [sendToWaitLoop, h1, ih]
    | true =>
      cases h2 : wait_for_ack this_address last_header_id e.observations with
      | false => simp [sendToWaitLoop, h1, hbcb, h2, ih]
      | true => simp [sendToWaitLoop, h1, hbcb, h2]

/-- C2 amended: with acknowledgments enabled and a non-broadcast destination,
send_to_wait succeeds exactly when, in one of its maxRetries + 1 attempt
windows, the low-level send succeeded and a stored payload passed the test of
lines 254-256 — destination equal to this device address, isAck flag set and
matching sequence id; the source address of the acknowledgment plays no part.
Otherwise it fails after exhausting the attempts. -/
theorem c2_ack_correlation_amended (st : LoRaState) (header_to retries : Nat)
    (attempts : List AttemptEnv) (hacks : st.acks = true)
    (hbc : header_to ≠ BROADCAST_ADDRESS)
    (_hn : attempts.length = retries + 1) :
    (send_to_wait st header_to attempts).2 = true ↔
      ∃ e ∈ attempts, e.sendSuccess = true ∧
        wait_for_ack st.this_address ((st.last_header_id + 1) &&& 0xff)
          e.observations = true := by
  show sendToWaitLoop st.acks st.this_address _ header_to attempts = true ↔ _
  rw [hacks]
  exact sendToWaitLoop_true_iff _ _ _ hbc attempts

/-- An acknowledgment that does satisfy the source condition as well, used to
instantiate the amended C2 theorem. -/
def c2w_pkt : Payload := ⟨[], 1, 5, 42, 0x80, 0, 0⟩

/-- One attempt observing that acknowledgment. -/
def c2w_attempts : List AttemptEnv := [⟨true, [some c2w_pkt]⟩]

/-- C2 witness: the amended equivalence instantiated at destination 5 with a
single attempt, all hypotheses discharged. -/
theorem c2_ack_correlation_witness :
    (send_to_wait c2_st 5 c2w_attempts).2 = true ↔
      ∃ e ∈ c2w_attempts, e.sendSuccess = true ∧
        wait_for_ack c2_st.this_address ((c2_st.last_header_id + 1) &&& 0xff)
          e.observations = true :=
  c2_ack_correlation_amended c2_st 5 0 c2w_attempts rfl (by decide) rfl

/-- Device state for the C4 scenario: receiving, no cipher, address 1. -/
def c4_st : LoRaState :=
  { this_address := 1, receive_all := false, acks := false, crypto := none,
    mode := some MODE_RXCONTINUOUS, cad := none, last_payload := none,
    last_header_id := 0, default_mode := 0 }

/-- Send environment with CAD disabled and a transmit wait that succeeds. -/
def c4_env : SendEnv := ⟨0, [], none, true⟩

/-- A 300-byte payload, giving a 304-byte frame, far beyond the 255-byte
buffer. -/
def c4_data : List Nat := List.replicate 300 7

/-- C4 counterexample: send with a 300-byte payload does not fail; it loads
the whole 304-byte frame into the FIFO, writes 304 into the payload-length
register, enters transmit mode and returns the transmit-wait result — there is
no length check anywhere in lines 206-234. -/
theorem c4_counterexample :
    (send c4_st c4_env c4_data 2 0 0).map SendResult.ok = some true ∧
    (send c4_st c4_env c4_data 2 0 0).map SendResult.trace =
      some [SpiOp.write REG_01_OP_MODE [ MODE_STDBY],
            SpiOp.write REG_0D_FIFO_ADDR_PTR [0],
            SpiOp.write REG_00_FIFO ([2, 1, 0, 0] ++ c4_data),
            SpiOp.write REG_22_PAYLOAD_LENGTH [304],
            SpiOp.write REG_01_OP_MODE [ MODE_TX],
            SpiOp.write REG_40_DIO_MAPPING1 [0x40]] ∧
    255 < ([2, 1, 0, 0] ++ c4_data).length := by
  set_option maxRecDepth 4000 in
  refine ⟨rfl, rfl, by decide⟩

/-- C4 amended: send validates nothing about the frame length.  For every
state and data, once the CAD wait is disabled, the call returns a result whose
bus trace loads the full header-plus-payload frame into the FIFO and writes
the frame length — however large — into the payload-length register, and whose
boolean result is just the transmit-wait outcome. -/
theorem c4_send_loads_any_length (st : LoRaState) (env : SendEnv)
    (data : List Nat) (header_to header_id header_flags : Nat)
    (h0 : env.cad_timeout = 0) :
    ∃ r, send st env data header_to header_id header_flags = some r ∧
      SpiOp.write REG_00_FIFO (buildFrame st header_to header_id header_flags data)
        ∈ r.trace ∧
      SpiOp.write REG_22_PAYLOAD_LENGTH
        [(buildFrame st header_to header_id header_flags data).length] ∈ r.trace ∧
      r.ok = env.txWaitAfter := by
  have hne : MODE_STDBY ≠ MODE_TX := by decide
  by_cases hm : st.mode = some MODE_STDBY <;>
    simp [send, wait_cad, h0, set_mode_idle, set_mode_tx, hm, hne]

/-- C4 witness: the amended theorem instantiated at the 300-byte payload
scenario. -/
theorem c4_send_loads_any_length_witness :
    ∃ r, send c4_st c4_env c4_data 2 0 0 = some r ∧
      SpiOp.write REG_00_FIFO (buildFrame c4_st 2 0 0 c4_data) ∈ r.trace ∧
      SpiOp.write REG_22_PAYLOAD_LENGTH [(buildFrame c4_st 2 0 0 c4_data).length]
        ∈ r.trace ∧
      r.ok = c4_env.txWaitAfter :=
  c4_send_loads_any_length c4_st c4_env c4_data 2 0 0 rfl

/-- Helper: when the delivery tail of the receive branch finishes without
raising and the packet is not an acknowledgment, the callback fires. -/
theorem rxDeliver_callback_of_no_error (st : LoRaState) (tr : List SpiOp)
    (decCalls : List (List Nat)) (message : List Nat)
    (header_to header_from header_id header_flags : Nat) (rssi : Int) (snr : Rat)
    (hack : header_flags &&& FLAGS_ACK = 0)
    (herr : (rxDeliver st tr decCalls message header_to header_from header_id
      header_flags rssi snr).error = none) :
    (rxDeliver st tr decCalls message header_to header_from header_id
      header_flags rssi snr).callbackInvoked.isSome = true := by
  unfold rxDeliver at herr ⊢
  split at herr
  · simp at herr
  · next h => simp only [if_neg h]; simp [hack]

/-- Device and packet for the C7 counterexample: receive-all enabled, packet
of length 4 addressed to 5 (neither this device 1 nor broadcast) carrying the
isAck flag. -/
def c7_st : LoRaState :=
  { this_address := 1, receive_all := true, acks := false, crypto := none,
    mode := some MODE_RXCONTINUOUS, cad := none, last_payload := none,
    last_header_id := 0, default_mode := 0 }

/-- Interrupt environment delivering that acknowledgment packet. -/
def c7_env : IrqEnv :=
  { irq_flags := RX_DONE, rx_current_addr := 0, packet := [5, 6, 7, 0x80],
    snr_raw := 0, rssi_raw := 0 }

/-- C7 counterexample: with receiveAll enabled, a 4-byte packet whose
destination is neither this device nor broadcast but whose isAck flag is set
is processed yet never handed to the user callback — line 343 withholds every
acknowledgment from on_recv, contradicting the unconditional second half of
the claim. -/
theorem c7_counterexample :
    4 ≤ c7_env.packet.length ∧ c7_st.receive_all = true ∧
    (handle_interrupt c7_st c7_env).error = none ∧
    (handle_interrupt c7_st c7_env).callbackInvoked = none := by
  exact ⟨by decide, rfl, rfl, rfl⟩

/-- C7 amended: a packet whose destination is neither this device nor the
broadcast address never reaches the user callback when receiveAll is off; and
with receiveAll on, a received packet of length at least 4 does reach the
callback provided its isAck flag is clear and the handler does not abort (the
decryption and auto-acknowledgment defects can raise first). -/
theorem c7_address_filter_amended (st : LoRaState) (env : IrqEnv) :
    (st.receive_all = false →
      st.this_address ≠ env.packet.getD 0 0 →
      BROADCAST_ADDRESS ≠ env.packet.getD 0 0 →
      (handle_interrupt st env).callbackInvoked = none) ∧
    (st.receive_all = true →
      st.mode = some MODE_RXCONTINUOUS →
      env.irq_flags &&& RX_DONE ≠ 0 →
      4 ≤ env.packet.length →
      env.packet.getD 3 0 &&& FLAGS_ACK = 0 →
      (handle_interrupt st env).error = none →
      (handle_interrupt st env).callbackInvoked.isSome = true) := by
  constructor
  · intro hra hto hbc
    have hcond : (st.this_address != env.packet.getD 0 0 &&
        BROADCAST_ADDRESS != env.packet.getD 0 0 &&
        st.receive_all == false) = true := by
      rw [hra]
      simp only [beq_self_eq_true, Bool.and_true, Bool.and_eq_true]
      exact ⟨by simpa using hto, by simpa using hbc⟩
    unfold handle_interrupt
    split
    · unfold rxBranch
      split
      · simp only [hcond]
      · rfl
    · split
      · rfl
      · split <;> rfl
  · intro hra hmode hirq hlen hack herr
    have hmb : (st.mode == some MODE_RXCONTINUOUS) = true := by simp [hmode]
    have hib : ((env.irq_flags &&& RX_DONE) != 0) = true := by simpa using hirq
    have hfil : (st.this_address != env.packet.getD 0 0 &&
        BROADCAST_ADDRESS != env.packet.getD 0 0 &&
        st.receive_all == false) = false := by simp [hra]
    unfold handle_interrupt at herr ⊢
    simp only [hmb, hib, Bool.and_self, if_true] at herr ⊢
    unfold rxBranch at herr ⊢
    rw [if_pos hlen] at herr ⊢
    rw [hfil] at herr ⊢
    simp only [Bool.false_eq_true, if_false] at herr ⊢
    cases hcr : st.crypto with
    | none =>
      rw [hcr] at herr
      exact rxDeliver_callback_of_no_error _ _ _ _ _ _ _ _ _ _ hack herr
    | some c =>
      rw [hcr] at herr
      dsimp only at herr ⊢
      by_cases h16 : ((env.packet.drop 4).length % 16 == 0) = true
      · rw [if_pos h16] at herr ⊢
        cases hd : pyDecrypt c.dec (env.packet.drop 4) with
        | error e => rw [hd] at herr; simp at herr
        | ok m =>
          rw [hd] at herr
          exact rxDeliver_callback_of_no_error _ _ _ _ _ _ _ _ _ _ hack herr
      · rw [if_neg h16] at herr ⊢
        exact rxDeliver_callback_of_no_error _ _ _ _ _ _ _ _ _ _ hack herr

/-- Device and packet for the C7 witness: same filtered destination but with
the isAck flag clear, plus a receive-all-off state for the first half. -/
def c7w_st : LoRaState :=
  { this_address := 1, receive_all := false, acks := false, crypto := none,
    mode := some MODE_RXCONTINUOUS, cad := none, last_payload := none,
    last_header_id := 0, default_mode := 0 }

/-- A plain data packet addressed to 5 from 6 with no flags set. -/
def c7w_env : IrqEnv :=
  { irq_flags := RX_DONE, rx_current_addr := 0, packet := [5, 6, 7, 0],
    snr_raw := 0, rssi_raw := 0 }

/-- C7 witness: both halves of the amended claim at concrete inputs — the
filtered state drops the packet, the receive-all state delivers it. -/
theorem c7_address_filter_witness :
    (handle_interrupt c7w_st c7w_env).callbackInvoked = none ∧
    (handle_interrupt c7_st c7w_env).callbackInvoked.isSome = true :=
  ⟨(c7_address_filter_amended c7w_st c7w_env).1 rfl (by decide) (by decide),
   (c7_address_filter_amended c7_st c7w_env).2 rfl rfl (by decide) (by decide)
     (by decide) rfl⟩

/-- The early-return path of lines 327-328: a receive-complete interrupt with
a packet of full header length whose destination passes neither address test
while receive-all is off.  On exactly this path the handler returns before the
final flag clear of line 355. -/
def droppedByFilter (st : LoRaState) (env : IrqEnv) : Prop :=
  st.mode = some MODE_RXCONTINUOUS ∧ env.irq_flags &&& RX_DONE ≠ 0 ∧
  4 ≤ env.packet.length ∧ st.this_address ≠ env.packet.getD 0 0 ∧
  BROADCAST_ADDRESS ≠ env.packet.getD 0 0 ∧ st.receive_all = false

instance (st : LoRaState) (env : IrqEnv) : Decidable (droppedByFilter st env) := by
  unfold droppedByFilter
  infer_instance

/-- Device and packet for the C8 counterexample: an address-filtered packet. -/
def c8_st : LoRaState :=
  { this_address := 1, receive_all := false, acks := false, crypto := none,
    mode := some MODE_RXCONTINUOUS, cad := none, last_payload := none,
    last_header_id := 0, default_mode := 0 }

/-- Interrupt environment delivering a packet addressed to 9. -/
def c8_env : IrqEnv :=
  { irq_flags := RX_DONE, rx_current_addr := 0, packet := [9, 2, 7, 0],
    snr_raw := 0, rssi_raw := 0 }

/-- C8 counterexample: on the address-filtered packet the handler returns
early from line 328 and the invocation does not end with a flag-clear write —
its last bus operation is the RSSI read — so the final clear of line 355 is
not executed on every path. -/
theorem c8_counterexample :
    droppedByFilter c8_st c8_env ∧
    (handle_interrupt c8_st c8_env).error = none ∧
    (handle_interrupt c8_st c8_env).trace.getLast? ≠
      some (SpiOp.write REG_12_IRQ_FLAGS [0xff]) := by
  refine ⟨by decide, rfl, by decide⟩

/-- Helper: whatever delivery tail runs, its trace keeps the in-branch flag
clear that the receive prologue already issued. -/
theorem clear_mem_rxDeliver_trace (st : LoRaState) (env : IrqEnv)
    (decCalls : List (List Nat)) (message : List Nat)
    (header_to header_from header_id header_flags : Nat) (rssi : Int) (snr : Rat) :
    SpiOp.write REG_12_IRQ_FLAGS [0xff] ∈
      (rxDeliver st (rxReadTrace env) decCalls message header_to header_from
        header_id header_flags rssi snr).trace := by
  unfold rxDeliver
  split
  · simp [rxReadTrace]
  · exact List.mem_append_right _ (by simp)

/-- Helper: when the delivery tail finishes without raising, its trace ends
with the final flag clear of line 355. -/
theorem rxDeliver_getLast_of_no_error (st : LoRaState) (tr : List SpiOp)
    (decCalls : List (List Nat)) (message : List Nat)
    (header_to header_from header_id header_flags : Nat) (rssi : Int) (snr : Rat)
    (herr : (rxDeliver st tr decCalls message header_to header_from header_id
      header_flags rssi snr).error = none) :
    (rxDeliver st tr decCalls message header_to header_from header_id
      header_flags rssi snr).trace.getLast? =
      some (SpiOp.write REG_12_IRQ_FLAGS [0xff]) := by
  unfold rxDeliver at herr ⊢
  split at herr
  · simp at herr
  · next h => simp only [if_neg h]; exact List.getLast?_concat _

/-- C8 amended: every invocation of the interrupt handler clears all interrupt
flags at least once — the receive branch clears them during the buffer drain
on line 308, every other path reaches line 355 — and the final unconditional
clear of line 355 is the last bus operation on every path except the early
return for address-filtered packets and the paths that raise, which have
already cleared the flags in the drain. -/
theorem c8_flags_cleared_amended (st : LoRaState) (env : IrqEnv) :
    SpiOp.write REG_12_IRQ_FLAGS [0xff] ∈ (handle_interrupt st env).trace ∧
    ((handle_interrupt st env).error = none → ¬ droppedByFilter st env →
      (handle_interrupt st env).trace.getLast? =
        some (SpiOp.write REG_12_IRQ_FLAGS [0xff])) := by
  constructor
  · unfold handle_interrupt
    split
    · unfold rxBranch
      split
      · split
        · simp [rxReadTrace]
        · split
          · split
            · split
              · simp [rxReadTrace]
              · exact clear_mem_rxDeliver_trace _ _ _ _ _ _ _ _ _ _
            · exact clear_mem_rxDeliver_trace _ _ _ _ _ _ _ _ _ _
          · exact clear_mem_rxDeliver_trace _ _ _ _ _ _ _ _ _ _
      · exact List.mem_append_right _ (by simp)
    · split
      · exact List.mem_append_right _ (by simp)
      · split
        · exact List.mem_append_right _ (by simp)
        · simp
  · intro herr hndrop
    by_cases hrx : (st.mode == some MODE_RXCONTINUOUS &&
        (env.irq_flags &&& RX_DONE) != 0) = true
    · unfold handle_interrupt at herr ⊢
      rw [if_pos hrx] at herr ⊢
      unfold rxBranch at herr ⊢
      by_cases hlen : 4 ≤ env.packet.length
      · rw [if_pos hlen] at herr ⊢
        have hfil : (st.this_address != env.packet.getD 0 0 &&
            BROADCAST_ADDRESS != env.packet.getD 0 0 &&
            st.receive_all == false) = false := by
          by_cases hc : (st.this_address != env.packet.getD 0 0 &&
              BROADCAST_ADDRESS != env.packet.getD 0 0 &&
              st.receive_all == false) = true
          · exfalso
            apply hndrop
            rw [Bool.and_eq_true] at hrx
            rw [Bool.and_eq_true, Bool.and_eq_true] at hc
            exact ⟨by simpa using hrx.1, by simpa using hrx.2, hlen,
                   by simpa using hc.1.1, by simpa using hc.1.2,
                   by simpa using hc.2⟩
          · exact Bool.eq_false_iff.mpr hc
        rw [hfil] at herr ⊢
        simp only [Bool.false_eq_true, if_false] at herr ⊢
        cases hcr : st.crypto with
        | none =>
          rw [hcr] at herr
          exact rxDeliver_getLast_of_no_error _ _ _ _ _ _ _ _ _ _ herr
        | some c =>
          rw [hcr] at herr
          dsimp only at herr ⊢
          by_cases h16 : ((env.packet.drop 4).length % 16 == 0) = true
          · rw [if_pos h16] at herr ⊢
            cases hd : pyDecrypt c.dec (env.packet.drop 4) with
            | error e => rw [hd] at herr; simp at herr
            | ok m =>
              rw [hd] at herr
              exact rxDeliver_getLast_of_no_error _ _ _ _ _ _ _ _ _ _ herr
          · rw [if_neg h16] at herr ⊢
            exact rxDeliver_getLast_of_no_error _ _ _ _ _ _ _ _ _ _ herr
      · rw [if_neg hlen] at herr ⊢
        exact List.getLast?_concat _
    · have hrx2 : (st.mode == some MODE_RXCONTINUOUS &&
          (env.irq_flags &&& RX_DONE) != 0) = false := Bool.eq_false_iff.mpr hrx
      unfold handle_interrupt
      rw [hrx2]
      simp only [Bool.false_eq_true, if_false]
      split
      · exact List.getLast?_concat _
      · split
        · exact List.getLast?_concat _
        · rfl

/-- Inputs for the C8 witness: a transmit-complete interrupt, whose path ends
with the final clear. -/
def c8w_st : LoRaState :=
  { this_address := 1, receive_all := false, acks := false, crypto := none,
    mode := some MODE_TX, cad := none, last_payload := none,
    last_header_id := 0, default_mode := 1 }

/-- Interrupt environment with the transmit-done bit set. -/
def c8w_env : IrqEnv :=
  { irq_flags := TX_DONE, rx_current_addr := 0, packet := [], snr_raw := 0,
    rssi_raw := 0 }

/-- C8 witness: the amended theorem at the transmit-done input, hypotheses
discharged. -/
theorem c8_flags_cleared_witness :
    SpiOp.write REG_12_IRQ_FLAGS [0xff] ∈ (handle_interrupt c8w_st c8w_env).trace ∧
    (handle_interrupt c8w_st c8w_env).trace.getLast? =
      some (SpiOp.write REG_12_IRQ_FLAGS [0xff]) :=
  ⟨(c8_flags_cleared_amended c8w_st c8w_env).1,
   (c8_flags_cleared_amended c8w_st c8w_env).2 rfl (by decide)⟩

/-- Helper: the delivery tail reports exactly the decrypt calls it was given,
on both of its paths. -/
theorem rxDeliver_decryptCalls (st : LoRaState) (tr : List SpiOp)
    (decCalls : List (List Nat)) (message : List Nat)
    (header_to header_from header_id header_flags : Nat) (rssi : Int) (snr : Rat) :
    (rxDeliver st tr decCalls message header_to header_from header_id
      header_flags rssi snr).decryptCalls = decCalls := by
  unfold rxDeliver
  split <;> rfl

/-- C10: a received, address-accepted packet of exactly the 4 header bytes has
the empty message, whose length 0 is a multiple of 16, so with a cipher
configured the handler passes the empty message to the cipher decrypt — the
message is never delivered as-is — and if the cipher returns an empty result
the length-byte indexing of line 289 raises IndexError, aborting the handler
with no callback and no payload update. -/
theorem c10_empty_message_decrypt (st : LoRaState) (env : IrqEnv) (c : Cipher)
    (hc : st.crypto = some c) (hmode : st.mode = some MODE_RXCONTINUOUS)
    (hirq : env.irq_flags &&& RX_DONE ≠ 0) (hlen : env.packet.length = 4)
    (hacc : st.this_address = env.packet.getD 0 0 ∨
            BROADCAST_ADDRESS = env.packet.getD 0 0 ∨ st.receive_all = true) :
    (handle_interrupt st env).decryptCalls = [[]] ∧
    (c.dec [] = [] →
      (handle_interrupt st env).error = some PyErr.indexError ∧
      (handle_interrupt st env).callbackInvoked = none ∧
      (handle_interrupt st env).last_payload = st.last_payload) := by
  have hmb : (st.mode == some MODE_RXCONTINUOUS) = true := by simp [hmode]
  have hib : ((env.irq_flags &&& RX_DONE) != 0) = true := by simpa using hirq
  have hlen4 : 4 ≤ env.packet.length := le_of_eq hlen.symm
  have hdrop : env.packet.drop 4 = [] :=
    List.drop_eq_nil_of_le (le_of_eq hlen)
  have hfil : (st.this_address != env.packet.getD 0 0 &&
      BROADCAST_ADDRESS != env.packet.getD 0 0 &&
      st.receive_all == false) = false := by
    rcases hacc with h | h | h <;> simp [h]
  unfold handle_interrupt
  simp only [hmb, hib, Bool.and_self, if_true]
  unfold rxBranch
  rw [if_pos hlen4, hfil]
  simp only [Bool.false_eq_true, if_false, hc]
  simp only [hdrop, List.length_nil, Nat.zero_mod, beq_self_eq_true, if_true]
  constructor
  · cases hd : pyDecrypt c.dec [] with
    | error e => rfl
    | ok m => exact rxDeliver_decryptCalls _ _ _ _ _ _ _ _ _ _
  · intro hdec
    have hpd : pyDecrypt c.dec [] = Except.error PyErr.indexError := by
      unfold pyDecrypt
      rw [hdec]
    rw [hpd]
    exact ⟨rfl, rfl, rfl⟩

/-- A cipher whose decrypt returns the empty byte string on every input,
matching a pycrypto AES instance applied to an empty ciphertext. -/
def c10_cipher : Cipher := ⟨fun x => x, fun _ => []⟩

/-- Device state for the C10 witness: that cipher configured, receiving. -/
def c10_st : LoRaState :=
  { this_address := 1, receive_all := false, acks := false,
    crypto := some c10_cipher, mode := some MODE_RXCONTINUOUS, cad := none,
    last_payload := none, last_header_id := 0, default_mode := 0 }

/-- A bare header addressed to this device: 4 bytes, empty message. -/
def c10_env : IrqEnv :=
  { irq_flags := RX_DONE, rx_current_addr := 0, packet := [1, 2, 3, 0],
    snr_raw := 0, rssi_raw := 0 }

/-- C10 witness: the theorem at the concrete empty-message packet — the
decrypt collaborator is called on the empty message and the handler aborts
with IndexError. -/
theorem c10_empty_message_decrypt_witness :
    (handle_interrupt c10_st c10_env).decryptCalls = [[]] ∧
    (handle_interrupt c10_st c10_env).error = some PyErr.indexError :=
  ⟨(c10_empty_message_decrypt c10_st c10_env c10_cipher rfl rfl (by decide) rfl
      (Or.inl rfl)).1,
   ((c10_empty_message_decrypt c10_st c10_env c10_cipher rfl rfl (by decide) rfl
      (Or.inl rfl)).2 rfl).1⟩

end PyLoRa
